import Mathlib

/-!
A shallow embedding of the Predicate Wars rules engine (`pwars.py`): the
card / player data model, the append-only ledger, the state reconstruction
(`currentGameStates`, `recentPlayerActions`), the transition function
(`nextGameState`), the duel gate (`startAxioms`), the legality checker
(`actionValid`) and the action applier (`action`), together with theorems
settling the specification claims about them.

Python runtime errors (IndexError, TypeError, AttributeError, ValueError,
GameException) are modelled by an `Except` result; Python's possibly
negative sequence indexing is modelled by `pyIdx`/`pyGet`.
-/

namespace PWarsModel

/-- The runtime failures the embedded code can raise. -/
inductive PError where
  | gameException
  | indexError
  | typeError
  | attributeError
  | valueError
  | zeroDivisionError
deriving DecidableEq, Repr

/-- Modelled from the spec: the external proof collaborator's statements are
opaque values carrying only an identity and a derivation-complexity score
(`symbolPoint`); the core never inspects them further. -/
structure Statement where
  ident : Nat
  sp : Int
deriving DecidableEq, Repr

/-- Modelled from the spec: the external collaborator's tag distinguishing
axiom statements from derived ones inside a proof. -/
inductive StateTag where
  | AXIOM
  | DERIVED
deriving DecidableEq, Repr

/-- Modelled from the spec: a proof exposes an ordered sequence of
statements, and a parallel sequence of tags. -/
structure Proof where
  statements : List Statement
  stateTags : List StateTag
deriving DecidableEq, Repr

/-- `Statement.symbolPoint`: the derivation-complexity score projection. -/
def Statement.symbolPoint (s : Statement) : Int := s.sp

inductive CardTag where
  | ROCK
  | PAPER
  | SCISSORS
deriving DecidableEq, Repr

/-- `CardTag.beat`: rock beats scissors, paper beats rock, scissors beats paper. -/
def CardTag.beat (t oppoTag : CardTag) : Bool :=
  if t = CardTag.ROCK ∧ oppoTag = CardTag.SCISSORS then true
  else if t = CardTag.PAPER ∧ oppoTag = CardTag.ROCK then true
  else if t = CardTag.SCISSORS ∧ oppoTag = CardTag.PAPER then true
  else false

structure Card where
  blank : Bool := true
  tag : Option CardTag := none
  powerCost : Option Int := none
  effect : Option Statement := none
  creator : Option Int := none
deriving DecidableEq, Repr

/-- `Card()` in the source: the default, all-`None` blank card value. -/
def blankCard : Card := {}

structure Player where
  health : Int
  power : Int := 100
  cards : List Card := []
  potency : Int := 25
  pPower : Int := 0
deriving DecidableEq, Repr

inductive GameStateType where
  | INITIAL
  | CREATION
  | EDITING
  | CLAIMING
  | MAIN
  | FINAL
  | SUBPROOF
  | ADDRULE
  | REMOVERULE
  | TURN
  | PROVE
  | RANDPLAYER
deriving DecidableEq, Repr

structure GameState where
  layer : Int
  type : GameStateType
  info : Option Int := none
deriving DecidableEq, Repr

inductive PlayerActionType where
  | EDIT
  | TAKEBLANK
  | CLAIM
  | PLAY
  | DISCARD
  | CLAIMPLAY
  | UNREMAIN
  | PROVE
  | SUBPROOF
  | ADDRULE
  | REMOVERULE
  | DEBUGACT
deriving DecidableEq, Repr

/-- The dynamic (`Any`) payload of a player action, restricted to the value
shapes the source actually stores there. -/
inductive PAInfo where
  | noneI
  | intI (n : Int)
  | boolI (b : Bool)
  | pairInt (a b : Int)
  | intCard (n : Int) (c : Card)
  | pairList (l : List (Int × Int))
  | proveInfo (opp : Option Int) (pf : Proof) (deriveIndex : Int)
deriving DecidableEq, Repr

structure PlayerAction where
  player : Int
  type : PlayerActionType
  info : PAInfo := .noneI
deriving DecidableEq, Repr

/-- One element of the ledger (`history`): a game state or a player action. -/
inductive Entry where
  | state (s : GameState)
  | act (a : PlayerAction)
deriving DecidableEq, Repr

def Entry.gameState? : Entry → Option GameState
  | .state s => some s
  | .act _ => none

/-- A game of Predicate Wars (the `PWars` dataclass's mutable fields). -/
structure PWars where
  players : List Player := []
  deck : List Card := []
  history : List Entry := []
  remaining : List Bool := []
  discardPile : List Card := []
  dropPile : List Card := []
  recentPlay : Option (Card × Card) := none
deriving DecidableEq, Repr

/-! ### Python sequence indexing -/

/-- Resolve a Python sequence index (negative indices count from the end)
to a plain position, or `none` when the access would raise IndexError. -/
def pyIdx (len : Nat) (i : Int) : Option Nat :=
  if 0 ≤ i then
    if i < (len : Int) then some i.toNat else none
  else
    let j := (len : Int) + i
    if 0 ≤ j then some j.toNat else none

/-- `l[i]` with Python semantics: IndexError outside the valid range. -/
def pyGet (l : List α) (i : Int) : Except PError α :=
  match pyIdx l.length i with
  | some n =>
      match l[n]? with
      | some x => .ok x
      | none => .error .indexError
  | none => .error .indexError

/-- `l[i] = x` with Python semantics (only used at indices `pyGet` accepts). -/
def pySet (l : List α) (i : Int) (x : α) : List α :=
  match pyIdx l.length i with
  | some n => l.set n x
  | none => l

/-- `del l[i]` with Python semantics. -/
def pyDel (l : List α) (i : Int) : Except PError (List α) :=
  match pyIdx l.length i with
  | some n => .ok (l.eraseIdx n)
  | none => .error .indexError

/-! ### State reconstruction -/

/-- The backward scan of `currentGameStates`: walk the (already reversed)
game-state entries keeping a running lowest layer (initially the source's
`100000` sentinel) and prepend each state whose layer goes strictly below it. -/
def cgsAux : List GameState → Int → List GameState → List GameState
  | [], _, res => res
  | s :: rest, hi, res =>
      if s.layer < hi then cgsAux rest s.layer (s :: res)
      else cgsAux rest hi res

/-- `PWars.currentGameStates`: the ordered path of currently active nested
game states, reconstructed from the ledger. -/
def currentGameStates (h : List Entry) : List GameState :=
  cgsAux (h.filterMap Entry.gameState?).reverse 100000 []

/-- `PWars.recentPlayerActions`: the ledger slice starting after the most
recent game-state entry; when no game state exists the source's `-1`
sentinel makes the slice `history[-1:]`, i.e. just the final entry. -/
def recentPlayerActions (h : List Entry) : List Entry :=
  match h.reverse.findIdx? (fun e => match e with | .state _ => true | .act _ => false) with
  | some i => h.drop (h.length - i)
  | none => h.drop (h.length - 1)

/-! ### Lemmas about the reconstruction scan -/

theorem cgsAux_chain (l : List GameState) : ∀ (hi : Int) (res : List GameState),
    List.Chain' (fun a b => a.layer < b.layer) res →
    (∀ x ∈ res, hi ≤ x.layer) →
    List.Chain' (fun a b => a.layer < b.layer) (cgsAux l hi res) := by
  induction l with
  | nil => intro hi res hchain _; simpa [cgsAux] using hchain
  | cons s rest ih =>
      intro hi res hchain hall
      simp only [cgsAux]
      split
      · rename_i hlt
        apply ih
        · rw [List.chain'_cons']
          refine ⟨?_, hchain⟩
          intro y hy
          have hmem : y ∈ res := List.mem_of_mem_head? hy
          have := hall y hmem
          omega
        · intro x hx
          rcases List.mem_cons.mp hx with hx | hx
          · simp [hx]
          · have := hall x hx; omega
      · exact ih hi res hchain hall

theorem cgsAux_ne_nil (l : List GameState) : ∀ (hi : Int) (res : List GameState),
    res ≠ [] → cgsAux l hi res ≠ [] := by
  induction l with
  | nil => intro hi res h; simpa [cgsAux] using h
  | cons s rest ih =>
      intro hi res h
      simp only [cgsAux]
      split
      · exact ih _ _ (by simp)
      · exact ih _ _ h

theorem cgsAux_nil_iff (l : List GameState) : ∀ (hi : Int),
    (cgsAux l hi [] = [] ↔ ∀ x ∈ l, hi ≤ x.layer) := by
  induction l with
  | nil => intro hi; simp [cgsAux]
  | cons s rest ih =>
      intro hi
      simp only [cgsAux]
      split
      · rename_i hlt
        constructor
        · intro h; exact absurd h (cgsAux_ne_nil _ _ _ (by simp))
        · intro h; exact absurd (h s (by simp)) (by omega)
      · rename_i hge
        rw [ih hi]
        constructor
        · intro h x hx
          rcases List.mem_cons.mp hx with hx | hx
          · subst hx; omega
          · exact h x hx
        · intro h x hx; exact h x (List.mem_cons_of_mem _ hx)

/-- Every state the reconstruction returns has a layer below the scan's
starting sentinel (or was already in the accumulator). -/
theorem cgsAux_mem (l : List GameState) : ∀ (hi : Int) (res : List GameState),
    ∀ x ∈ cgsAux l hi res, x.layer < hi ∨ x ∈ res := by
  induction l with
  | nil => intro hi res x hx; right; simpa [cgsAux] using hx
  | cons s rest ih =>
      intro hi res x hx
      simp only [cgsAux] at hx
      split at hx
      · rename_i hlt
        rcases ih _ _ x hx with h | h
        · left; omega
        · rcases List.mem_cons.mp h with h | h
          · subst h; left; exact hlt
          · right; exact h
      · exact ih _ _ x hx

theorem currentGameStates_layer_lt (h : List Entry) :
    ∀ x ∈ currentGameStates h, x.layer < 100000 := by
  intro x hx
  rcases cgsAux_mem _ _ _ x hx with h | h
  · exact h
  · simp at h

/-! ### Duel gate -/

/-- `PWars.startAxioms`. The source guards the success branches with
`len(gameStates) == 3 and gameStates[0].type == MAIN and
gameStates[3].type == PROVE`: when the reconstructed path has length 3 and
starts with MAIN, evaluating `gameStates[3]` raises IndexError; in every
other case the conjunction is false and the method raises
`GameException("Not in proving game state")`. The success expressions of
the source are therefore unreachable and do not appear here. -/
def startAxioms (g : PWars) (_opposingProofIndex : Option Int) :
    Except PError (List Statement) :=
  match currentGameStates g.history with
  | [g0, _, _] =>
      if g0.type = GameStateType.MAIN then .error .indexError
      else .error .gameException
  | _ => .error .gameException

/-! ### Scan composition lemmas (for the round-trip claim) -/

/-- The running minimum the scan reaches after processing a list. -/
def minHi : List GameState → Int → Int
  | [], hi => hi
  | s :: l, hi => minHi l (if s.layer < hi then s.layer else hi)

theorem cgsAux_append (l1 l2 : List GameState) : ∀ (hi : Int) (res : List GameState),
    cgsAux (l1 ++ l2) hi res = cgsAux l2 (minHi l1 hi) (cgsAux l1 hi res) := by
  induction l1 with
  | nil => intro hi res; simp [minHi, cgsAux]
  | cons s l ih =>
      intro hi res
      simp only [List.cons_append, cgsAux, minHi]
      split <;> rename_i hc
      · exact ih _ _
      · exact ih _ _

theorem cgsAux_of_decreasing (l : List GameState) : ∀ (hi : Int) (res : List GameState),
    List.Chain' (fun a b => b.layer < a.layer) l →
    (∀ x ∈ l.head?, x.layer < hi) →
    cgsAux l hi res = l.reverse ++ res := by
  induction l with
  | nil => intro hi res _ _; simp [cgsAux]
  | cons s l ih =>
      intro hi res hchain hhd
      have hs : s.layer < hi := hhd s (by simp)
      rw [List.chain'_cons'] at hchain
      simp only [cgsAux, if_pos hs]
      rw [ih s.layer (s :: res) hchain.2 hchain.1, List.reverse_cons,
        List.append_assoc, List.singleton_append]

theorem cgsAux_suffix_res (l : List GameState) : ∀ (hi : Int) (res : List GameState),
    res <:+ cgsAux l hi res := by
  induction l with
  | nil => intro hi res; simp [cgsAux]
  | cons s l ih =>
      intro hi res
      simp only [cgsAux]
      split
      · exact (List.suffix_cons s res).trans (ih _ _)
      · exact ih _ _

theorem filterMap_gameState_map_state (out : List GameState) :
    (out.map Entry.state).filterMap Entry.gameState? = out := by
  induction out with
  | nil => rfl
  | cons a t iht =>
      show a :: (t.map Entry.state).filterMap Entry.gameState? = a :: t
      rw [iht]

/-- Appending a block of GameState entries whose layers strictly increase
(and stay under the sentinel) makes that block a suffix of the
reconstructed path. -/
theorem currentGameStates_append_suffix (h : List Entry) (out : List GameState)
    (hchain : List.Chain' (fun a b => a.layer < b.layer) out)
    (hbound : ∀ x ∈ out, x.layer < 100000) :
    out <:+ currentGameStates (h ++ out.map Entry.state) := by
  unfold currentGameStates
  rw [List.filterMap_append]
  rw [filterMap_gameState_map_state, List.reverse_append, cgsAux_append]
  have h1 : cgsAux out.reverse 100000 [] = out := by
    rw [cgsAux_of_decreasing]
    · simp
    · rw [List.chain'_reverse]
      simpa [flip] using hchain
    · intro x hx
      have hmem : x ∈ out.reverse := List.mem_of_mem_head? hx
      exact hbound x (List.mem_reverse.mp hmem)
  rw [h1]
  exact cgsAux_suffix_res _ _ _

/-! ### Transition function -/

/-- `GameState.nextTurn`: increment the TURN payload modulo the player
count; ValueError on a non-TURN state, TypeError on a missing payload,
ZeroDivisionError with no players (Python `%` by zero). -/
def GameState.nextTurn (g : PWars) (turn : GameState) : Except PError GameState :=
  if turn.type = GameStateType.TURN then
    match turn.info with
    | none => .error .typeError
    | some n =>
        if g.players.length = 0 then .error .zeroDivisionError
        else .ok ⟨turn.layer, GameStateType.TURN, some ((n + 1) % (g.players.length : Int))⟩
  else .error .valueError

/-- `GameState.randPlayer`: the sampled player index is the model's `r`
parameter (the external RNG); `random.randint(0, -1)` on an empty player
list raises ValueError. -/
def randPlayerState (g : PWars) (r : Nat) (layer : Int) : Except PError GameState :=
  if g.players.length = 0 then .error .valueError
  else .ok ⟨layer, GameStateType.RANDPLAYER, some (r : Int)⟩

/-- Reading `.player`/`.info`/`.type` off a ledger entry, as the source does
on the action window: a GameState entry would raise AttributeError. -/
def entryAct : Entry → Except PError PlayerAction
  | .state _ => .error .attributeError
  | .act a => .ok a

def entriesActs : List Entry → Except PError (List PlayerAction)
  | [] => .ok []
  | e :: es =>
      match entryAct e with
      | .error err => .error err
      | .ok a =>
          match entriesActs es with
          | .error err => .error err
          | .ok as => .ok (a :: as)

/-- Python truthiness of an action payload (used when tallying votes). -/
def pyTruthy : PAInfo → Bool
  | .noneI => false
  | .intI n => decide (n ≠ 0)
  | .boolI b => b
  | .pairInt _ _ => true
  | .intCard _ _ => true
  | .pairList l => decide (l ≠ [])
  | .proveInfo _ _ _ => true

/-- Python dict assignment `d[k] = v`: update in place if the key exists,
append otherwise. -/
def dictUpdate (d : List (Int × PAInfo)) (k : Int) (v : PAInfo) : List (Int × PAInfo) :=
  if d.any (fun p => p.1 = k) then d.map (fun p => if p.1 = k then (k, v) else p)
  else d ++ [(k, v)]

/-- The CREATION vote dict `{**{i: False for i in range(n)}, **{i: bl ...}}`:
defaults of `False` for every player index, then each action's
`(player, info)` pair written in order (last write per key wins). -/
def votesDict (n : Nat) (acts : List PlayerAction) : List (Int × PAInfo) :=
  acts.foldl (fun d a => dictUpdate d a.player a.info)
    ((List.range n).map (fun (i : Nat) => ((i : Int), PAInfo.boolI false)))

/-- Count of blank cards remaining in the deck. -/
def deckBlankCount (g : PWars) : Nat := g.deck.countP (fun c => decide (c = blankCard))

/-- The body of `PWars.nextGameState` after its empty-history check, taking
the reconstructed states and the action window as arguments. -/
def nextGameStateAux (g : PWars) (r : Nat) (gs : List GameState) (pa : List Entry) :
    Except PError (List GameState) :=
  if gs = [⟨0, GameStateType.INITIAL, none⟩] then .ok [⟨0, GameStateType.CREATION, none⟩]
  else if gs = [⟨0, GameStateType.CREATION, none⟩] then
    match entriesActs pa with
    | .error e => .error e
    | .ok acts =>
        if (votesDict g.players.length acts).countP (fun p => pyTruthy p.2) > deckBlankCount g then
          match randPlayerState g r 1 with
          | .error e => .error e
          | .ok rp => .ok [rp, ⟨0, GameStateType.EDITING, none⟩]
        else .ok [⟨0, GameStateType.EDITING, none⟩]
  else
    match gs.head? with
    | none => .error .indexError
    | some g0 =>
      if g0 = ⟨0, GameStateType.EDITING, none⟩ then
        match randPlayerState g r 1 with
        | .error e => .error e
        | .ok rp => .ok [⟨0, GameStateType.CLAIMING, none⟩, rp]
      else if g0 = ⟨0, GameStateType.CLAIMING, none⟩ then
        if gs.length = 2 then
          match gs[1]? with
          | some s1 =>
              if s1.type = GameStateType.RANDPLAYER then .ok [⟨2, GameStateType.TURN, s1.info⟩]
              else .error .gameException
          | none => .error .indexError
        else if gs.length = 3 then
          match gs[1]?, gs[2]? with
          | some s1, some s2 =>
              if s1.type = GameStateType.RANDPLAYER ∧ s2.type = GameStateType.TURN then
                match GameState.nextTurn g s2 with
                | .error e => .error e
                | .ok nt =>
                    if nt ≠ ⟨2, GameStateType.TURN, s1.info⟩ then .ok [nt]
                    else
                      match randPlayerState g r 1 with
                      | .error e => .error e
                      | .ok rp => .ok [⟨0, GameStateType.MAIN, none⟩, rp]
              else .error .gameException
          | _, _ => .error .indexError
        else .error .gameException
      else if g0 = ⟨0, GameStateType.MAIN, none⟩ then
        match gs[1]? with
        | none => .error .indexError
        | some s1 =>
          if s1.type = GameStateType.RANDPLAYER then
            if gs.length = 2 then .ok [⟨2, GameStateType.TURN, s1.info⟩]
            else if gs.length = 3 ∧ pa.length = 1 then
              match pa.head? with
              | some (.state _) => .error .attributeError
              | some (.act a) =>
                  if a.type = PlayerActionType.PLAY then .ok [⟨3, GameStateType.PROVE, none⟩]
                  else
                    match gs[2]? with
                    | some s2 =>
                        match GameState.nextTurn g s2 with
                        | .error e => .error e
                        | .ok nt => .ok [nt]
                    | none => .error .indexError
              | none => .error .indexError
            else if gs.length = 4 then
              match gs[2]? with
              | some s2 =>
                  match GameState.nextTurn g s2 with
                  | .error e => .error e
                  | .ok nt => .ok [nt]
              | none => .error .indexError
            else .error .gameException
          else .error .gameException
      else .error .gameException

/-- `PWars.nextGameState`: the transition function. `r` stands for the
external RNG's sampled player index. -/
def nextGameState (g : PWars) (r : Nat) : Except PError (List GameState) :=
  if g.history = [] then .ok [⟨0, GameStateType.INITIAL, none⟩]
  else nextGameStateAux g r (currentGameStates g.history) (recentPlayerActions g.history)

theorem nextTurn_layer (g : PWars) (s nt : GameState)
    (h : GameState.nextTurn g s = .ok nt) : nt.layer = s.layer := by
  unfold GameState.nextTurn at h
  split at h
  · split at h
    · simp at h
    · split at h
      · simp at h
      · injection h with h2; subst h2; rfl
  · simp at h

theorem randPlayerState_ok (g : PWars) (r : Nat) (L : Int) (rp : GameState)
    (h : randPlayerState g r L = .ok rp) :
    rp = ⟨L, GameStateType.RANDPLAYER, some (r : Int)⟩ := by
  unfold randPlayerState at h
  split at h
  · simp at h
  · injection h with h2; exact h2.symm

set_option maxHeartbeats 2000000 in
/-- Every state list the transition function returns keeps its layers below
the reconstruction sentinel. -/
theorem nextGameStateAux_layer_lt (g : PWars) (r : Nat) (gs : List GameState) (pa : List Entry)
    (out : List GameState) (hgs : ∀ x ∈ gs, x.layer < 100000)
    (h : nextGameStateAux g r gs pa = .ok out) :
    ∀ x ∈ out, x.layer < 100000 := by
  unfold nextGameStateAux at h
  split at h
  · injection h with h2; subst h2
    intro x hx; simp only [List.mem_singleton] at hx; subst hx; norm_num
  · split at h
    · -- CREATION branch
      split at h
      · simp at h
      · split at h
        · split at h
          · simp at h
          · rename_i rp hrp
            injection h with h2; subst h2
            have hrp2 := randPlayerState_ok g r 1 rp hrp
            intro x hx
            rcases List.mem_cons.mp hx with hx | hx
            · subst hx; rw [hrp2]; norm_num
            · simp only [List.mem_singleton] at hx; subst hx; norm_num
        · injection h with h2; subst h2
          intro x hx; simp only [List.mem_singleton] at hx; subst hx; norm_num
    · split at h
      · simp at h
      · rename_i g0 hg0
        split at h
        · -- EDITING
          split at h
          · simp at h
          · rename_i rp hrp
            injection h with h2; subst h2
            have hrp2 := randPlayerState_ok g r 1 rp hrp
            intro x hx
            rcases List.mem_cons.mp hx with hx | hx
            · subst hx; norm_num
            · simp only [List.mem_singleton] at hx; subst hx; rw [hrp2]; norm_num
        · split at h
          · -- CLAIMING
            split at h
            · -- length 2
              split at h
              · split at h
                · injection h with h2; subst h2
                  intro x hx; simp only [List.mem_singleton] at hx; subst hx; norm_num
                · simp at h
              · simp at h
            · split at h
              · -- length 3
                split at h
                · rename_i s1 s2 heq1 heq2
                  split at h
                  · split at h
                    · simp at h
                    · rename_i nt hnt
                      split at h
                      · injection h with h2; subst h2
                        intro x hx
                        simp only [List.mem_singleton] at hx; subst hx
                        rw [nextTurn_layer g s2 x hnt]
                        exact hgs s2 (List.getElem?_mem heq2)
                      · split at h
                        · simp at h
                        · rename_i rp hrp
                          injection h with h2; subst h2
                          have hrp2 := randPlayerState_ok g r 1 rp hrp
                          intro x hx
                          rcases List.mem_cons.mp hx with hx | hx
                          · subst hx; norm_num
                          · simp only [List.mem_singleton] at hx; subst hx; rw [hrp2]; norm_num
                  · simp at h
                · simp at h
              · simp at h
          · split at h
            · -- MAIN
              split at h
              · simp at h
              · rename_i s1 heq1
                split at h
                · split at h
                  · injection h with h2; subst h2
                    intro x hx; simp only [List.mem_singleton] at hx; subst hx; norm_num
                  · split at h
                    · -- length 3 with one action
                      split at h
                      · simp at h
                      · rename_i a heqa
                        split at h
                        · injection h with h2; subst h2
                          intro x hx; simp only [List.mem_singleton] at hx; subst hx; norm_num
                        · split at h
                          · rename_i s2 heq2
                            split at h
                            · simp at h
                            · rename_i nt hnt
                              injection h with h2; subst h2
                              intro x hx
                              simp only [List.mem_singleton] at hx; subst hx
                              rw [nextTurn_layer g s2 x hnt]
                              exact hgs s2 (List.getElem?_mem heq2)
                          · simp at h
                      · simp at h
                    · split at h
                      · -- length 4
                        split at h
                        · rename_i s2 heq2
                          split at h
                          · simp at h
                          · rename_i nt hnt
                            injection h with h2; subst h2
                            intro x hx
                            simp only [List.mem_singleton] at hx; subst hx
                            rw [nextTurn_layer g s2 x hnt]
                            exact hgs s2 (List.getElem?_mem heq2)
                        · simp at h
                      · simp at h
                · simp at h
            · simp at h

/-! ### Structural action validity -/

/-- The `typeReq` argument of `PlayerAction.valid`: absent, a single
action type, or a tuple of action types. -/
inductive TypeReq where
  | noneReq
  | one (t : PlayerActionType)
  | many (ts : List PlayerActionType)
deriving DecidableEq, Repr

/-- The per-type structural checks of `PlayerAction.valid` (the part after
the `typeReq` filter). Notable faithful details: EDIT subscripts
`info[1]` (TypeError on a non-subscriptable payload, IndexError on a short
list, and any non-Card element compares unequal to `Card()`); DISCARD
accepts a bool payload because Python's `bool` is an `int`; PROVE reaches
`isinstance(self.info[0], (int, None))` on a 3-tuple payload, and the
interpreter checks the tuple classinfo left to right, short-circuiting on
the first match: an int index matches `int` and the check succeeds (the
Proof and int fields then match their tests), while a `None` index fails
`int` and reaches the `None` member, which is not a type, raising
TypeError; the unlisted action types fall into `raise ValueError`. -/
def PlayerAction.validSpecific (a : PlayerAction) : Except PError Bool :=
  match a.type with
  | .EDIT =>
      match a.info with
      | .intCard _ c => .ok (decide (c ≠ blankCard))
      | .pairInt _ _ => .ok true
      | .proveInfo _ _ _ => .ok true
      | .pairList l => if 2 ≤ l.length then .ok true else .error .indexError
      | _ => .error .typeError
  | .TAKEBLANK =>
      match a.info with
      | .boolI _ => .ok true
      | _ => .ok false
  | .CLAIM =>
      match a.info with
      | .pairList _ => .ok true
      | _ => .ok false
  | .PLAY =>
      match a.info with
      | .pairInt _ _ => .ok true
      | _ => .ok false
  | .DISCARD =>
      match a.info with
      | .intI _ => .ok true
      | .boolI _ => .ok true
      | _ => .ok false
  | .UNREMAIN =>
      match a.info with
      | .noneI => .ok true
      | _ => .ok false
  | .CLAIMPLAY =>
      match a.info with
      | .pairList _ => .ok true
      | _ => .ok false
  | .PROVE =>
      match a.info with
      | .proveInfo (some _) _ _ => .ok true
      | .proveInfo none _ _ => .error .typeError
      | _ => .ok false
  | .DEBUGACT => .ok true
  | _ => .error .valueError

/-- `PlayerAction.valid`: filter on the requested type(s) first (returning
false on a mismatch), then run the structural checks. -/
def PlayerAction.valid (a : PlayerAction) (typeReq : TypeReq) : Except PError Bool :=
  match typeReq with
  | .one t => if a.type = t then a.validSpecific else .ok false
  | .many ts => if a.type ∈ ts then a.validSpecific else .ok false
  | .noneReq => a.validSpecific

/-- `all(playerAct.valid(t) for playerAct in window)`: short-circuiting
conjunction over ledger entries (a GameState entry would raise
AttributeError when `.valid` is looked up). -/
def allValid (tr : TypeReq) : List Entry → Except PError Bool
  | [] => .ok true
  | e :: es =>
      match e with
      | .state _ => .error .attributeError
      | .act a =>
          match a.valid tr with
          | .error err => .error err
          | .ok true => allValid tr es
          | .ok false => .ok false

/-- `_allUnique(entries, key=player)`: short-circuiting duplicate scan. -/
def allUniquePlayers : List Entry → List Int → Except PError Bool
  | [], _ => .ok true
  | e :: es, seen =>
      match e with
      | .state _ => .error .attributeError
      | .act a =>
          if a.player ∈ seen then .ok false
          else allUniquePlayers es (a.player :: seen)

/-- `any(self.players[playerId].cards[cardId] == Card() for ...)`:
short-circuiting blank-reference scan. -/
def anyBlankRef (g : PWars) : List (Int × Int) → Except PError Bool
  | [] => .ok false
  | (pid, cid) :: rest =>
      match pyGet g.players pid with
      | .error e => .error e
      | .ok p =>
          match pyGet p.cards cid with
          | .error e => .error e
          | .ok c => if c = blankCard then .ok true else anyBlankRef g rest

/-! ### Legality checker -/

/-- The PLAY sub-branch of the MAIN-phase legality check: blank cards are
rejected, the main card's complexity must not exceed the secondary's, and
against an existing `recentPlay` the main card must not cost more than the
opponent's and must either not be beaten on tags or strictly undercut the
opponent's complexity; the non-returning fall-through of the source ends at
the final `return False`. -/
def playCheck (g : PWars) (player : Player) (act : PlayerAction) : Except PError Bool :=
  match act.info with
  | .pairInt i j =>
      match pyGet player.cards i with
      | .error e => .error e
      | .ok mainCard =>
          match pyGet player.cards j with
          | .error e => .error e
          | .ok secCard =>
              if mainCard = blankCard ∨ secCard = blankCard then .ok false
              else
                match mainCard.effect with
                | none => .error .attributeError
                | some me =>
                    match secCard.effect with
                    | none => .error .attributeError
                    | some se =>
                        if me.symbolPoint > se.symbolPoint then .ok false
                        else
                          match g.recentPlay with
                          | some (oppoMainCard, _) =>
                              match mainCard.powerCost, oppoMainCard.powerCost with
                              | some mpc, some opc =>
                                  if mpc > opc then .ok false
                                  else
                                    match oppoMainCard.tag with
                                    | none => .error .attributeError
                                    | some ot =>
                                        if !(match mainCard.tag with
                                             | some mt => ot.beat mt
                                             | none => false) then .ok true
                                        else
                                          match oppoMainCard.effect with
                                          | none => .error .attributeError
                                          | some oe =>
                                              if me.symbolPoint < oe.symbolPoint then .ok true
                                              else .ok false
                              | _, _ => .error .typeError
                          | none => .ok true
  | _ => .ok false

/-- The CLAIMPLAY sub-branch of the MAIN-phase legality check. -/
def claimPlayCheck (g : PWars) (act : PlayerAction) : Except PError Bool :=
  match act.info with
  | .pairList l =>
      if l.length ≤ 8 then
        match anyBlankRef g l with
        | .error e => .error e
        | .ok b => .ok (!b)
      else .ok false
  | _ => .ok false

/-- The 4-deep PROVE branch body of the legality check (after the
`valid(PROVE)` gate, which in fact raises on every 3-tuple payload). -/
def fourDeepCheck (g : PWars) (pa : List Entry) (act : PlayerAction) : Except PError Bool :=
  match act.valid (TypeReq.one .PROVE) with
  | .error e => .error e
  | .ok false => .ok false
  | .ok true =>
      match act.info with
      | .proveInfo opp pf _ =>
          if pa.length = 0 ∧ opp.isSome then .ok false
          else
            match opp with
            | none => .error .typeError
            | some o =>
                if o > (pa.length : Int) then .ok false
                else
                  match startAxioms g (some o) with
                  | .error e => .error e
                  | .ok axs =>
                      .ok (decide (axs = (pf.statements.zip pf.stateTags).filterMap
                        (fun st => if st.2 = StateTag.AXIOM then some st.1 else none)))
      | _ => .ok false

/-- The MAIN-phase 3-deep (TURN, empty window) legality dispatch. -/
def mainThreeDeep (g : PWars) (player : Player) (gs : List GameState) (pa : List Entry)
    (act : PlayerAction) : Except PError Bool :=
  if gs.length = 3 then
    match gs[2]? with
    | some s2 =>
        if s2.type = GameStateType.TURN ∧ pa.length = 0 then
          match act.valid (TypeReq.many [.PLAY, .DISCARD, .CLAIMPLAY, .UNREMAIN]) with
          | .error e => .error e
          | .ok false => .ok false
          | .ok true =>
              if act.type = PlayerActionType.PLAY then playCheck g player act
              else if act.type = PlayerActionType.DISCARD ∨
                  act.type = PlayerActionType.UNREMAIN then .ok true
              else if act.type = PlayerActionType.CLAIMPLAY then claimPlayCheck g act
              else .ok false
        else .ok false
    | none => .ok false
  else .ok false

/-- The MAIN-phase branch of the legality check: requires the actor to be
`remaining`, then tries the 3-deep dispatch, then the 4-deep PROVE gate. -/
def mainBranch (g : PWars) (player : Player) (gs : List GameState) (pa : List Entry)
    (act : PlayerAction) : Except PError Bool :=
  match gs.head? with
  | none => .error .indexError
  | some g0 =>
      if g0 = ⟨0, GameStateType.MAIN, none⟩ then
        match pyGet g.remaining act.player with
        | .error e => .error e
        | .ok remain =>
            if remain then
              match mainThreeDeep g player gs pa act with
              | .error e => .error e
              | .ok true => .ok true
              | .ok false =>
                  if gs.length = 4 then
                    match gs[3]? with
                    | some s3 =>
                        if s3.type = GameStateType.PROVE then fourDeepCheck g pa act
                        else .ok false
                    | none => .ok false
                  else .ok false
            else .ok false
      else .ok false

/-- The CLAIMING-phase branch of the legality check. -/
def claimingBranch (g : PWars) (gs : List GameState) (pa : List Entry) (act : PlayerAction) :
    Except PError Bool :=
  match gs.head? with
  | none => .error .indexError
  | some g0 =>
      if g0 = ⟨0, GameStateType.CLAIMING, none⟩ then
        if gs.length = 3 then
          match gs[2]? with
          | some s2 =>
              if s2.type = GameStateType.TURN then
                match allValid (TypeReq.one .CLAIM) (pa ++ [Entry.act act]) with
                | .error e => .error e
                | .ok false => .ok false
                | .ok true =>
                    if pa.length = 0 then
                      match s2.info with
                      | some n =>
                          if act.player = n then
                            match act.info with
                            | .pairList l =>
                                if l.length ≤ 8 then
                                  match anyBlankRef g l with
                                  | .error e => .error e
                                  | .ok b => .ok (!b)
                                else .ok false
                            | _ => .error .typeError
                          else .ok false
                      | none => .ok false
                    else .ok false
              else .ok false
          | none => .ok false
        else .ok false
      else .ok false

/-- The INITIAL-phase branch of the legality check. -/
def initialBranch (gs : List GameState) (pa : List Entry) (act : PlayerAction) :
    Except PError Bool :=
  if gs = [⟨0, GameStateType.INITIAL, none⟩] then
    allValid (TypeReq.one .EDIT) (pa ++ [Entry.act act])
  else .ok false

/-- The CREATION-phase branch of the legality check. -/
def creationBranch (gs : List GameState) (pa : List Entry) (act : PlayerAction) :
    Except PError Bool :=
  if gs = [⟨0, GameStateType.CREATION, none⟩] then
    match allValid (TypeReq.one .TAKEBLANK) (pa ++ [Entry.act act]) with
    | .error e => .error e
    | .ok false => .ok false
    | .ok true => allUniquePlayers (pa ++ [Entry.act act]) []
  else .ok false

/-- The EDITING-phase branch of the legality check. -/
def editingBranch (gs : List GameState) (pa : List Entry) (act : PlayerAction) :
    Except PError Bool :=
  if gs = [⟨0, GameStateType.EDITING, none⟩] then
    match allValid (TypeReq.one .EDIT) (pa ++ [Entry.act act]) with
    | .error e => .error e
    | .ok false => .ok false
    | .ok true => allUniquePlayers (pa ++ [Entry.act act]) []
  else .ok false

/-- `if <branch accepts> return True` chaining: errors propagate, a true
result returns, a false result falls through to the next branch. -/
def orE (x : Except PError Bool) (y : Unit → Except PError Bool) : Except PError Bool :=
  match x with
  | .error e => .error e
  | .ok true => .ok true
  | .ok false => y ()

/-- `PWars.actionValid`: the legality checker. The actor lookup happens
before the empty-path check, mirroring the source's evaluation order. -/
def actionValid (g : PWars) (act : PlayerAction) : Except PError Bool :=
  match pyGet g.players act.player with
  | .error e => .error e
  | .ok player =>
      if (currentGameStates g.history).length = 0 then .ok false
      else
        orE (act.valid (TypeReq.one .DEBUGACT)) (fun _ =>
        orE (initialBranch (currentGameStates g.history) (recentPlayerActions g.history) act)
          (fun _ =>
        orE (creationBranch (currentGameStates g.history) (recentPlayerActions g.history) act)
          (fun _ =>
        orE (editingBranch (currentGameStates g.history) (recentPlayerActions g.history) act)
          (fun _ =>
        orE (claimingBranch g (currentGameStates g.history) (recentPlayerActions g.history) act)
          (fun _ =>
        mainBranch g player (currentGameStates g.history) (recentPlayerActions g.history)
          act)))))

/-! ### Card economy -/

/-- `Player.editCard`: replace a blank card unconditionally, otherwise pay
twice the EXISTING card's power cost (TypeError when a non-blank-by-value
card has no power cost). -/
def Player.editCard (p : Player) (cardID : Int) (toCard : Card) :
    Except PError (Bool × Player) :=
  match pyGet p.cards cardID with
  | .error e => .error e
  | .ok c =>
      if c = blankCard then .ok (true, { p with cards := pySet p.cards cardID toCard })
      else
        match c.powerCost with
        | none => .error .typeError
        | some pc =>
            if p.power ≥ 2 * pc then
              .ok (true,
                { p with power := p.power - 2 * pc, cards := pySet p.cards cardID toCard })
            else .ok (false, p)

/-! ### Action applier -/

/-- `l[n] = f l[n]` at a plain index (used where the source mutates through
an object reference that must exist). -/
def listModify (l : List α) (n : Nat) (f : α → α) : List α :=
  match l[n]? with
  | some x => l.set n (f x)
  | none => l

/-- `l[i] = x` with Python semantics including the IndexError. -/
def pySetE (l : List α) (i : Int) (x : α) : Except PError (List α) :=
  match pyIdx l.length i with
  | some n => .ok (l.set n x)
  | none => .error .indexError

/-- Python stable descending sort by the pair's second component
(`sorted(..., key=lambda x: x[1], reverse=True)`). -/
def insertDesc (x : Int × Int) : List (Int × Int) → List (Int × Int)
  | [] => [x]
  | y :: ys => if x.2 ≥ y.2 then x :: y :: ys else y :: insertDesc x ys

def sortedPairsDesc (l : List (Int × Int)) : List (Int × Int) :=
  l.foldr insertDesc []

/-- `sum(self.players[pid].cards[cid].powerCost for pid, cid in info)`:
left-to-right, failing at the first bad lookup or missing cost. -/
def powerSpentSum (g : PWars) : List (Int × Int) → Except PError Int
  | [] => .ok 0
  | (pid, cid) :: rest =>
      match pyGet g.players pid with
      | .error e => .error e
      | .ok p =>
          match pyGet p.cards cid with
          | .error e => .error e
          | .ok c =>
              match c.powerCost with
              | none => .error .typeError
              | some pc =>
                  match powerSpentSum g rest with
                  | .error e => .error e
                  | .ok s => .ok (pc + s)

/-- The claim-transfer loop: append the referenced card to the actor's hand
(through the actor alias), then delete it from the owner's hand; the error
case carries the partially mutated state, as a Python exception would leave
it. -/
def claimTransfer (actorIdx : Nat) : PWars → List (Int × Int) → Except (PError × PWars) PWars
  | g, [] => .ok g
  | g, (pid, cid) :: rest =>
      match pyGet g.players pid with
      | .error e => .error (e, g)
      | .ok powner =>
          match pyGet powner.cards cid with
          | .error e => .error (e, g)
          | .ok c =>
              let g1 : PWars :=
                { g with
                  players := listModify g.players actorIdx
                    (fun p => { p with cards := p.cards ++ [c] }) }
              match pyGet g1.players pid with
              | .error e => .error (e, g1)
              | .ok powner1 =>
                  match pyDel powner1.cards cid with
                  | .error e => .error (e, g1)
                  | .ok cards2 =>
                      match pySetE g1.players pid { powner1 with cards := cards2 } with
                      | .error e => .error (e, g1)
                      | .ok ps => claimTransfer actorIdx { g1 with players := ps } rest

/-- The INITIAL/EDITING application step: `player.editCard(info[0], info[1])`.
Only the `(int, Card)` payload shape is representable here; the source
would accept any subscriptable payload and store its second element. -/
def applyEdit (g : PWars) (actorIdx : Nat) (act : PlayerAction) :
    Except (PError × PWars) PWars :=
  match g.players[actorIdx]? with
  | none => .error (.indexError, g)
  | some player =>
      match act.info with
      | .intCard n c =>
          match player.editCard n c with
          | .error e => .error (e, g)
          | .ok (_, p') => .ok { g with players := g.players.set actorIdx p' }
      | _ => .error (.typeError, g)

/-- The CLAIMING application step: price the referenced cards, and only if
the actor can pay, transfer them (highest card index first) and deduct. -/
def applyClaiming (g : PWars) (actorIdx : Nat) (act : PlayerAction) :
    Except (PError × PWars) PWars :=
  match act.info with
  | .pairList pairs =>
      match powerSpentSum g pairs with
      | .error e => .error (e, g)
      | .ok spent =>
          match g.players[actorIdx]? with
          | none => .error (.indexError, g)
          | some player =>
              if spent ≤ player.power then
                match claimTransfer actorIdx g (sortedPairsDesc pairs) with
                | .error ep => .error ep
                | .ok g2 =>
                    .ok { g2 with
                          players := listModify g2.players actorIdx
                            (fun p => { p with power := p.power - spent }) }
              else .ok g
  | _ => .error (.typeError, g)

/-- The CLAIMPLAY application step: identical to claiming at double price. -/
def applyClaimPlay (g : PWars) (actorIdx : Nat) (act : PlayerAction) :
    Except (PError × PWars) PWars :=
  match act.info with
  | .pairList pairs =>
      match powerSpentSum g pairs with
      | .error e => .error (e, g)
      | .ok s =>
          match g.players[actorIdx]? with
          | none => .error (.indexError, g)
          | some player =>
              if s * 2 ≤ player.power then
                match claimTransfer actorIdx g (sortedPairsDesc pairs) with
                | .error ep => .error ep
                | .ok g2 =>
                    .ok { g2 with
                          players := listModify g2.players actorIdx
                            (fun p => { p with power := p.power - s * 2 }) }
              else .ok g
  | _ => .error (.typeError, g)

/-- The DISCARD application step: raise the card's power cost by 2
(TypeError on a blank card's absent cost, after the ledger append), move it
to the discard pile, delete it from the hand. -/
def discardAt (g : PWars) (actorIdx : Nat) (i : Int) : Except (PError × PWars) PWars :=
  match g.players[actorIdx]? with
  | none => .error (.indexError, g)
  | some player =>
      match pyGet player.cards i with
      | .error e => .error (e, g)
      | .ok c =>
          match c.powerCost with
          | none => .error (.typeError, g)
          | some pc =>
              let c' : Card := { c with powerCost := some (pc + 2) }
              let g1 : PWars := { g with
                players := g.players.set actorIdx { player with cards := pySet player.cards i c' },
                discardPile := g.discardPile ++ [c'] }
              match g1.players[actorIdx]? with
              | none => .error (.indexError, g1)
              | some p2 =>
                  match pyDel p2.cards i with
                  | .error e => .error (e, g1)
                  | .ok cards2 =>
                      .ok { g1 with players := g1.players.set actorIdx { p2 with cards := cards2 } }

/-- The PLAY application step: record both cards in the drop pile and as
`recentPlay`, then delete them from the hand highest index first. -/
def applyPlay (g : PWars) (actorIdx : Nat) (i j : Int) : Except (PError × PWars) PWars :=
  match g.players[actorIdx]? with
  | none => .error (.indexError, g)
  | some player =>
      match pyGet player.cards i with
      | .error e => .error (e, g)
      | .ok ci =>
          match pyGet player.cards j with
          | .error e => .error (e, g)
          | .ok cj =>
              let g1 : PWars :=
                { g with dropPile := g.dropPile ++ [ci, cj], recentPlay := some (ci, cj) }
              match g1.players[actorIdx]? with
              | none => .error (.indexError, g1)
              | some p1 =>
                  match pyDel p1.cards (max i j) with
                  | .error e => .error (e, g1)
                  | .ok cards1 =>
                      let g2 : PWars := { g1 with
                        players := g1.players.set actorIdx { p1 with cards := cards1 } }
                      match g2.players[actorIdx]? with
                      | none => .error (.indexError, g2)
                      | some p2 =>
                          match pyDel p2.cards (min i j) with
                          | .error e => .error (e, g2)
                          | .ok cards2 =>
                              .ok { g2 with
                                players := g2.players.set actorIdx { p2 with cards := cards2 } }

/-- The MAIN-phase application dispatch: PLAY / DISCARD / UNREMAIN in an
if/elif chain, then the separate CLAIMPLAY `if`. -/
def applyMain (g : PWars) (actorIdx : Nat) (act : PlayerAction) :
    Except (PError × PWars) PWars :=
  match (match act.type with
         | PlayerActionType.PLAY =>
             match act.info with
             | .pairInt i j => applyPlay g actorIdx i j
             | _ => .error (.typeError, g)
         | PlayerActionType.DISCARD =>
             match act.info with
             | .intI i => discardAt g actorIdx i
             | .boolI b => discardAt g actorIdx (if b then 1 else 0)
             | _ => .error (.typeError, g)
         | PlayerActionType.UNREMAIN =>
             match pySetE g.remaining act.player false with
             | .error e => .error (e, g)
             | .ok rem => .ok { g with remaining := rem }
         | _ => (.ok g : Except (PError × PWars) PWars)) with
  | .error ep => .error ep
  | .ok gA =>
      if act.type = PlayerActionType.CLAIMPLAY then applyClaimPlay gA actorIdx act
      else .ok gA

/-- The post-append body of `PWars.action`: `g1` is the match with the
action already appended to the ledger; the reconstructed state path is read
off `g1` exactly as the source reads it after `self.history.append`. -/
def actionApply (g1 : PWars) (act : PlayerAction) : Except PError Bool × PWars :=
  match pyIdx g1.players.length act.player with
  | none => (.error .indexError, g1)
  | some actorIdx =>
      match (if currentGameStates g1.history = [⟨0, GameStateType.INITIAL, none⟩]
             then applyEdit g1 actorIdx act else .ok g1) with
      | .error (e, gerr) => (.error e, gerr)
      | .ok g2 =>
          match (if currentGameStates g1.history = [⟨0, GameStateType.EDITING, none⟩]
                 then applyEdit g2 actorIdx act else .ok g2) with
          | .error (e, gerr) => (.error e, gerr)
          | .ok g3 =>
              match (currentGameStates g1.history).head? with
              | none => (.error .indexError, g3)
              | some g0 =>
                  match (if g0 = ⟨0, GameStateType.CLAIMING, none⟩
                         then applyClaiming g3 actorIdx act else .ok g3) with
                  | .error (e, gerr) => (.error e, gerr)
                  | .ok g4 =>
                      match (if g0 = ⟨0, GameStateType.MAIN, none⟩
                             then applyMain g4 actorIdx act else .ok g4) with
                      | .error (e, gerr) => (.error e, gerr)
                      | .ok g5 => (.ok true, g5)

/-- `PWars.action`: check legality, append the action to the ledger, then
apply the phase-keyed mutations; the second component is the match state
when the call returns or raises. -/
def action (g : PWars) (act : PlayerAction) : Except PError Bool × PWars :=
  match actionValid g act with
  | .error e => (.error e, g)
  | .ok false => (.ok false, g)
  | .ok true => actionApply { g with history := g.history ++ [Entry.act act] } act

/-! ### Vote-dict characterization (for the CREATION transition claim) -/

/-- The value a player index ends up with in the vote dict: the payload of
their last action in the window, else the supplied default. -/
def updAll (f : Nat → PAInfo) (acts : List PlayerAction) (i : Nat) : PAInfo :=
  match acts.reverse.find? (fun a => decide (a.player = (i : Int))) with
  | some a => a.info
  | none => f i

/-- Following the spec's words: a player's vote is their last TAKEBLANK vote
in the action window, defaulting to false when they did not vote. -/
def lastVote (acts : List PlayerAction) (i : Nat) : Bool :=
  match acts.reverse.find? (fun a => decide (a.player = (i : Int))) with
  | some a => pyTruthy a.info
  | none => false

/-- Following the spec's words: the number of players whose (defaulted,
last-write-wins) vote is true. -/
def specVoteCount (n : Nat) (acts : List PlayerAction) : Nat :=
  ((List.range n).filter (fun i => lastVote acts i)).length

theorem dictUpdate_canon (n : Nat) (f : Nat → PAInfo) (k : Int) (v : PAInfo)
    (hk : ∃ j : Nat, j < n ∧ (j : Int) = k) :
    dictUpdate ((List.range n).map (fun (i : Nat) => ((i : Int), f i))) k v
      = (List.range n).map (fun (i : Nat) => ((i : Int), if (i : Int) = k then v else f i)) := by
  obtain ⟨j, hj, hjk⟩ := hk
  unfold dictUpdate
  rw [if_pos]
  · rw [List.map_map]
    apply List.map_congr_left
    intro i _
    by_cases hik : (i : Int) = k
    · simp [Function.comp, hik]
    · simp [Function.comp, hik]
  · rw [List.any_eq_true]
    refine ⟨((j : Int), f j), List.mem_map_of_mem _ (List.mem_range.mpr hj), by simp [hjk]⟩

theorem updAll_cons (f : Nat → PAInfo) (a : PlayerAction) (rest : List PlayerAction) (i : Nat) :
    updAll f (a :: rest) i
      = updAll (fun j => if (j : Int) = a.player then a.info else f j) rest i := by
  unfold updAll
  rw [List.reverse_cons, List.find?_append]
  cases hfind : rest.reverse.find? (fun b => decide (b.player = (i : Int))) with
  | some b => simp [hfind]
  | none =>
      simp only [hfind, Option.none_or]
      by_cases hai : a.player = (i : Int)
      · simp [List.find?, hai, eq_comm]
      · simp only [List.find?, hai, decide_eq_true_eq, decide_False, cond_false]
        rw [if_neg (fun h => hai (Eq.symm h))]

theorem votesDict_canon (acts : List PlayerAction) : ∀ (n : Nat) (f : Nat → PAInfo),
    (∀ a ∈ acts, ∃ k : Nat, k < n ∧ a.player = (k : Int)) →
    acts.foldl (fun d a => dictUpdate d a.player a.info)
        ((List.range n).map (fun (i : Nat) => ((i : Int), f i)))
      = (List.range n).map (fun (i : Nat) => ((i : Int), updAll f acts i)) := by
  induction acts with
  | nil =>
      intro n f _
      apply List.map_congr_left
      intro i _
      rfl
  | cons a rest ih =>
      intro n f hmem
      obtain ⟨k, hk, hak⟩ := hmem a (List.mem_cons_self a rest)
      simp only [List.foldl_cons]
      rw [dictUpdate_canon n f a.player a.info ⟨k, hk, hak.symm⟩]
      rw [ih n _ (fun b hb => hmem b (List.mem_cons_of_mem a hb))]
      apply List.map_congr_left
      intro i _
      rw [updAll_cons]

theorem votesDict_count (n : Nat) (acts : List PlayerAction)
    (hmem : ∀ a ∈ acts, ∃ k : Nat, k < n ∧ a.player = (k : Int)) :
    (votesDict n acts).countP (fun p => pyTruthy p.2) = specVoteCount n acts := by
  unfold votesDict
  rw [votesDict_canon acts n _ hmem, List.countP_map, specVoteCount,
    List.countP_eq_length_filter]
  congr 1
  apply List.filter_congr
  intro i _
  show pyTruthy (updAll (fun _ => PAInfo.boolI false) acts i) = lastVote acts i
  unfold updAll lastVote
  cases acts.reverse.find? (fun a => decide (a.player = (i : Int))) <;> rfl

theorem entriesActs_map_act (acts : List PlayerAction) :
    entriesActs (acts.map Entry.act) = .ok acts := by
  induction acts with
  | nil => rfl
  | cons a rest ih =>
      show (match entriesActs (rest.map Entry.act) with
            | Except.error err => (Except.error err : Except PError (List PlayerAction))
            | Except.ok as => Except.ok (a :: as)) = Except.ok (a :: rest)
      rw [ih]

/-! ### Claim C8 -/

/-- Claim C8, confirmed: at CREATION (layer 0) the transition tallies the
TAKEBLANK votes with default false and last-vote-wins, and pushes
`[RANDPLAYER@1, EDITING@0]` exactly when the count of true votes strictly
exceeds the blank cards remaining in the deck, else just `[EDITING@0]`. -/
theorem claim8_creation_transition (g : PWars) (r : Nat) (acts : List PlayerAction)
    (hgs : currentGameStates g.history = [⟨0, GameStateType.CREATION, none⟩])
    (hpa : recentPlayerActions g.history = acts.map Entry.act)
    (hacts : ∀ a ∈ acts, a.type = PlayerActionType.TAKEBLANK ∧
        (∃ b, a.info = PAInfo.boolI b) ∧
        ∃ k : Nat, k < g.players.length ∧ a.player = (k : Int)) :
    nextGameState g r =
      .ok (if specVoteCount g.players.length acts > deckBlankCount g
           then [⟨1, GameStateType.RANDPLAYER, some (r : Int)⟩, ⟨0, GameStateType.EDITING, none⟩]
           else [⟨0, GameStateType.EDITING, none⟩]) := by
  have hne : g.history ≠ [] := by
    intro hnil
    rw [hnil] at hgs
    simp [currentGameStates, cgsAux] at hgs
  unfold nextGameState
  rw [if_neg hne]
  unfold nextGameStateAux
  rw [hgs, hpa, if_neg (by decide), if_pos rfl]
  simp only [entriesActs_map_act]
  rw [votesDict_count g.players.length acts (fun a ha => (hacts a ha).2.2)]
  by_cases hc : specVoteCount g.players.length acts > deckBlankCount g
  · rw [if_pos hc, if_pos hc]
    have hn : g.players.length ≠ 0 := by
      intro h0
      have : specVoteCount g.players.length acts = 0 := by
        rw [specVoteCount, h0]
        simp
      omega
    rw [randPlayerState, if_neg hn]
  · rw [if_neg hc, if_neg hc]

/-- Witness for the CREATION transition claim: 4 players, all four voting
TAKEBLANK=false, full blank deck — the transition yields `[EDITING@0]` with
no RANDPLAYER. -/
def claim8Game : PWars :=
  { players := [{ health := 200 }, { health := 200 }, { health := 200 }, { health := 200 }],
    deck := [blankCard, blankCard],
    history := [Entry.state ⟨0, GameStateType.INITIAL, none⟩,
                Entry.state ⟨0, GameStateType.CREATION, none⟩,
                Entry.act ⟨0, PlayerActionType.TAKEBLANK, PAInfo.boolI false⟩,
                Entry.act ⟨1, PlayerActionType.TAKEBLANK, PAInfo.boolI false⟩,
                Entry.act ⟨2, PlayerActionType.TAKEBLANK, PAInfo.boolI false⟩,
                Entry.act ⟨3, PlayerActionType.TAKEBLANK, PAInfo.boolI false⟩],
    remaining := [false, false, false, false] }

theorem claim8_creation_transition_witness :
    nextGameState claim8Game 2 = .ok [⟨0, GameStateType.EDITING, none⟩] := by
  have h := claim8_creation_transition claim8Game 2
      [⟨0, PlayerActionType.TAKEBLANK, PAInfo.boolI false⟩,
       ⟨1, PlayerActionType.TAKEBLANK, PAInfo.boolI false⟩,
       ⟨2, PlayerActionType.TAKEBLANK, PAInfo.boolI false⟩,
       ⟨3, PlayerActionType.TAKEBLANK, PAInfo.boolI false⟩]
      (by rfl) (by rfl)
      (by
        intro a ha
        fin_cases ha
        · exact ⟨rfl, ⟨false, rfl⟩, 0, by decide, rfl⟩
        · exact ⟨rfl, ⟨false, rfl⟩, 1, by decide, rfl⟩
        · exact ⟨rfl, ⟨false, rfl⟩, 2, by decide, rfl⟩
        · exact ⟨rfl, ⟨false, rfl⟩, 3, by decide, rfl⟩)
  rw [h]
  rfl

/-! ### Claim C2 -/

/-- A 4-player position in the CREATION phase with an empty deck and one
TAKEBLANK=true vote: the transition overflows into the
`[RANDPLAYER@1, EDITING@0]` push. -/
def claim2Game : PWars :=
  { players := [{ health := 200 }, { health := 200 }, { health := 200 }, { health := 200 }],
    deck := [],
    history := [Entry.state ⟨0, GameStateType.INITIAL, none⟩,
                Entry.state ⟨0, GameStateType.CREATION, none⟩,
                Entry.act ⟨0, PlayerActionType.TAKEBLANK, PAInfo.boolI true⟩],
    remaining := [false, false, false, false] }

/-- Claim C2, counterexample: in the CREATION overflow case the transition
function returns `[RANDPLAYER@1, EDITING@0]`, but after appending them the
reconstruction keeps only `[EDITING@0]` — the RANDPLAYER entry is dropped,
so the appended entries are not the new suffix. -/
theorem claim2_counterexample :
    nextGameState claim2Game 5
      = .ok [⟨1, GameStateType.RANDPLAYER, some 5⟩, ⟨0, GameStateType.EDITING, none⟩] ∧
    currentGameStates (claim2Game.history ++
        ([⟨1, GameStateType.RANDPLAYER, some 5⟩,
          (⟨0, GameStateType.EDITING, none⟩ : GameState)].map Entry.state))
      = [⟨0, GameStateType.EDITING, none⟩] ∧
    ¬ ([(⟨1, GameStateType.RANDPLAYER, some 5⟩ : GameState), ⟨0, GameStateType.EDITING, none⟩]
        <:+ [(⟨0, GameStateType.EDITING, none⟩ : GameState)]) := by
  refine ⟨by rfl, by rfl, ?_⟩
  rintro ⟨t, ht⟩
  have := congrArg List.length ht
  simp at this

/-- Claim C2, amended: whenever `nextGameState` succeeds and the returned
block is itself strictly layer-increasing — which holds for every transition
output except the CREATION overflow push `[RANDPLAYER@1, EDITING@0]`, whose
RANDPLAYER is immediately superseded — appending the block to the ledger and
re-deriving `currentGameStates` yields the appended entries, in order, as
the new suffix. -/
theorem claim2_roundtrip (g : PWars) (r : Nat) (out : List GameState)
    (h1 : nextGameState g r = .ok out)
    (h2 : List.Chain' (fun a b => a.layer < b.layer) out) :
    out <:+ currentGameStates (g.history ++ out.map Entry.state) := by
  apply currentGameStates_append_suffix _ _ h2
  unfold nextGameState at h1
  split at h1
  · injection h1 with h1'; subst h1'
    intro x hx; simp only [List.mem_singleton] at hx; subst hx; norm_num
  · exact nextGameStateAux_layer_lt g r _ _ out (currentGameStates_layer_lt g.history) h1

/-- Witness for the amended round-trip claim at a concrete input: the empty
match, whose transition pushes `[INITIAL@0]`. -/
theorem claim2_roundtrip_witness :
    nextGameState {} 0 = .ok [⟨0, GameStateType.INITIAL, none⟩] ∧
    [(⟨0, GameStateType.INITIAL, none⟩ : GameState)] <:+
      currentGameStates (({} : PWars).history ++
        ([(⟨0, GameStateType.INITIAL, none⟩ : GameState)].map Entry.state)) :=
  ⟨rfl, claim2_roundtrip {} 0 _ rfl (by simp)⟩

/-! ### Claim C3 -/

theorem startAxioms_always_errors (g : PWars) (opp : Option Int) :
    ∃ e, startAxioms g opp = .error e := by
  unfold startAxioms
  split
  · split
    · exact ⟨_, rfl⟩
    · exact ⟨_, rfl⟩
  · exact ⟨_, rfl⟩

/-- Claim C3 (code bug): `startAxioms` can never return successfully — its
guard tests `len(gameStates) == 3` yet indexes `gameStates[3]`, so in the
4-deep PROVE state (where the claim says it must return the axiom
statements) the length test fails and it raises the "not in a proving
state" GameException; with a 3-deep path starting at MAIN it raises
IndexError instead. -/
theorem claim3_startAxioms_never_succeeds (g : PWars) (opp : Option Int) :
    ∃ e, startAxioms g opp = .error e := by
  unfold startAxioms
  split
  · split
    · exact ⟨_, rfl⟩
    · exact ⟨_, rfl⟩
  · exact ⟨_, rfl⟩

/-! ### Claim C1 -/

/-- Claim C1, counterexample: a ledger holding one GameState entry whose
layer is the `100000` sentinel (or larger) makes `currentGameStates` return
the empty sequence even though a GameState has been appended, refuting the
claimed "empty iff no GameState appended" equivalence. -/
theorem claim1_counterexample :
    currentGameStates [Entry.state ⟨100000, GameStateType.INITIAL, none⟩] = [] ∧
    ([Entry.state ⟨100000, GameStateType.INITIAL, none⟩].filterMap Entry.gameState?) ≠ [] := by
  constructor
  · rfl
  · decide

/-- Claim C1, amended: for every ledger content, `currentGameStates` is a
strictly increasing sequence of layers (and, being a plain function of the
ledger in this model, is pure), and it returns the empty sequence exactly
when the ledger holds no GameState entry of layer below the scan's 100000
sentinel — in particular, empty whenever no GameState has been appended. -/
theorem claim1_reconstruction (h : List Entry) :
    List.Chain' (fun a b => a.layer < b.layer) (currentGameStates h) ∧
    (currentGameStates h = [] ↔ ∀ s ∈ h.filterMap Entry.gameState?, 100000 ≤ s.layer) := by
  constructor
  · exact cgsAux_chain _ _ _ (by simp) (by simp)
  · rw [currentGameStates, cgsAux_nil_iff]
    constructor
    · intro hh x hx; exact hh x (by simpa using hx)
    · intro hh x hx; exact hh x (by simpa using hx)

/-! ### Claim C7 -/

/-- Claim C7, failing input: with no GameState entry anywhere in the ledger,
`recentPlayerActions` returns only the final entry (the `-1` "not found"
sentinel becomes the Python slice `history[-1:]`), not every PlayerAction
from the start as claimed. -/
theorem claim7_no_gamestate_slice :
    recentPlayerActions
        [Entry.act ⟨0, .TAKEBLANK, .boolI true⟩, Entry.act ⟨1, .TAKEBLANK, .boolI false⟩]
      = [Entry.act ⟨1, .TAKEBLANK, .boolI false⟩] ∧
    [Entry.act ⟨1, .TAKEBLANK, .boolI false⟩]
      ≠ [Entry.act ⟨0, .TAKEBLANK, .boolI true⟩, Entry.act ⟨1, .TAKEBLANK, .boolI false⟩] := by
  constructor
  · rfl
  · decide

/-! ### Claim C5 -/

/-- Claim C5, counterexample: `editCard` charges twice the EXISTING card's
power cost, not the new card's. With power 10, existing cost 1 and new cost
100, the claim demands not-applied (10 < 2·100), yet the code applies the
replacement and deducts 2. -/
theorem claim5_counterexample :
    Player.editCard
        { health := 200, power := 10,
          cards := [{ blank := false, tag := some CardTag.ROCK, powerCost := some 1,
                      effect := some ⟨0, 0⟩, creator := some 0 }] }
        0
        { blank := false, tag := some CardTag.PAPER, powerCost := some 100,
          effect := some ⟨1, 0⟩, creator := some 0 }
      = .ok (true,
          { health := 200, power := 8,
            cards := [{ blank := false, tag := some CardTag.PAPER, powerCost := some 100,
                        effect := some ⟨1, 0⟩, creator := some 0 }] }) ∧
    (10 : Int) < 2 * 100 := by
  exact ⟨rfl, by decide⟩

/-- Claim C5, amended: if the existing card at the index equals the blank
card, the replacement always succeeds regardless of power; if it is
non-blank with power cost `pc`, the replacement succeeds and deducts `2*pc`
exactly when the player's power is at least twice the EXISTING card's power
cost, and otherwise returns not-applied leaving hand and power unchanged. -/
theorem claim5_editCard (p : Player) (i : Int) (newCard : Card) (c : Card)
    (hc : pyGet p.cards i = .ok c) :
    (c = blankCard →
      p.editCard i newCard = .ok (true, { p with cards := pySet p.cards i newCard })) ∧
    (∀ pc : Int, c ≠ blankCard → c.powerCost = some pc →
      (2 * pc ≤ p.power →
        p.editCard i newCard
          = .ok (true, { p with power := p.power - 2 * pc,
                                cards := pySet p.cards i newCard })) ∧
      (p.power < 2 * pc → p.editCard i newCard = .ok (false, p))) := by
  simp only [Player.editCard, hc]
  constructor
  · intro hb
    rw [if_pos hb]
  · intro pc hnb hpc
    rw [if_neg hnb]
    simp only [hpc]
    constructor
    · intro hle
      rw [if_pos (by omega)]
    · intro hlt
      rw [if_neg (by omega)]

/-- Witness for the amended editCard claim: a blank card is replaced even
with zero power. -/
theorem claim5_editCard_witness :
    Player.editCard { health := 200, power := 0, cards := [blankCard] } 0
        { blank := false, tag := some CardTag.ROCK, powerCost := some 50,
          effect := some ⟨0, 0⟩, creator := some 0 }
      = .ok (true,
          { health := 200, power := 0,
            cards := [{ blank := false, tag := some CardTag.ROCK, powerCost := some 50,
                        effect := some ⟨0, 0⟩, creator := some 0 }] }) := by
  have h := (claim5_editCard { health := 200, power := 0, cards := [blankCard] } 0
      { blank := false, tag := some CardTag.ROCK, powerCost := some 50,
        effect := some ⟨0, 0⟩, creator := some 0 } blankCard rfl).1 rfl
  rw [h]
  rfl

/-! ### Branch lemmas for the legality checker -/

theorem allValid_append_act (tr : TypeReq) (l : List Entry) (a : PlayerAction)
    (h : allValid tr (l ++ [Entry.act a]) = .ok true) : a.valid tr = .ok true := by
  induction l with
  | nil =>
      simp only [List.nil_append, allValid] at h
      cases hv : a.valid tr with
      | error e => simp [hv] at h
      | ok b =>
          cases b
          · simp [hv] at h
          · rfl
  | cons e es ih =>
      rw [List.cons_append] at h
      cases e with
      | state s => simp [allValid] at h
      | act b =>
          simp only [allValid] at h
          cases hv : b.valid tr with
          | error er => simp [hv] at h
          | ok bb =>
              cases bb
              · simp [hv] at h
              · simp only [hv] at h; exact ih h

theorem initialBranch_ne_true (gs : List GameState) (pa : List Entry) (a : PlayerAction)
    (hv : a.valid (TypeReq.one .EDIT) ≠ .ok true) : initialBranch gs pa a ≠ .ok true := by
  unfold initialBranch
  split
  · intro h; exact hv (allValid_append_act _ _ _ h)
  · simp

theorem creationBranch_ne_true (gs : List GameState) (pa : List Entry) (a : PlayerAction)
    (hv : a.valid (TypeReq.one .TAKEBLANK) ≠ .ok true) : creationBranch gs pa a ≠ .ok true := by
  unfold creationBranch
  split
  · intro hres
    cases hav : allValid (TypeReq.one .TAKEBLANK) (pa ++ [Entry.act a]) with
    | error e => rw [hav] at hres; simp at hres
    | ok b =>
        cases b
        · rw [hav] at hres; simp at hres
        · exact hv (allValid_append_act _ _ _ hav)
  · simp

theorem editingBranch_ne_true (gs : List GameState) (pa : List Entry) (a : PlayerAction)
    (hv : a.valid (TypeReq.one .EDIT) ≠ .ok true) : editingBranch gs pa a ≠ .ok true := by
  unfold editingBranch
  split
  · intro hres
    cases hav : allValid (TypeReq.one .EDIT) (pa ++ [Entry.act a]) with
    | error e => rw [hav] at hres; simp at hres
    | ok b =>
        cases b
        · rw [hav] at hres; simp at hres
        · exact hv (allValid_append_act _ _ _ hav)
  · simp

theorem claimingBranch_ne_true (g : PWars) (gs : List GameState) (pa : List Entry)
    (a : PlayerAction) (hv : a.valid (TypeReq.one .CLAIM) ≠ .ok true) :
    claimingBranch g gs pa a ≠ .ok true := by
  unfold claimingBranch
  intro hres
  split at hres
  · simp at hres
  · split at hres
    · split at hres
      · split at hres
        · split at hres
          · cases hav : allValid (TypeReq.one .CLAIM) (pa ++ [Entry.act a]) with
            | error e => rw [hav] at hres; simp at hres
            | ok b =>
                cases b
                · rw [hav] at hres; simp at hres
                · exact hv (allValid_append_act _ _ _ hav)
          · simp at hres
        · simp at hres
      · simp at hres
    · simp at hres

theorem mainThreeDeep_of_valid_false (g : PWars) (player : Player) (gs : List GameState)
    (pa : List Entry) (a : PlayerAction)
    (hv : a.valid (TypeReq.many [.PLAY, .DISCARD, .CLAIMPLAY, .UNREMAIN]) = .ok false) :
    mainThreeDeep g player gs pa a = .ok false := by
  unfold mainThreeDeep
  split
  · split
    · split
      · rw [hv]
      · rfl
    · rfl
  · rfl

/-! ### Claim C9 -/

theorem fourDeepCheck_ne_true (g : PWars) (pa : List Entry) (p0 : Int) (opp : Option Int)
    (pf : Proof) (d : Int) :
    fourDeepCheck g pa (PlayerAction.mk p0 .PROVE (.proveInfo opp pf d)) ≠ .ok true := by
  unfold fourDeepCheck
  cases opp with
  | none =>
      intro h
      simp only [show (PlayerAction.mk p0 .PROVE (.proveInfo none pf d)).valid
          (TypeReq.one .PROVE) = .error .typeError from rfl] at h
      exact Except.noConfusion h
  | some o =>
      intro h
      simp only [show (PlayerAction.mk p0 .PROVE (.proveInfo (some o) pf d)).valid
          (TypeReq.one .PROVE) = .ok true from rfl] at h
      split at h
      · simp at h
      · split at h
        · simp at h
        · obtain ⟨e, he⟩ := startAxioms_always_errors g (some o)
          simp [he] at h

/-- Claim C9, counterexample: for a PROVE action whose 3-tuple payload
carries an integer opposing-proof index, `isinstance(info[0], (int, None))`
short-circuits on the `int` member of the classinfo tuple before reaching
the invalid `None`, so `PlayerAction.valid` DOES return true — refuting the
claimed "never returns true: the type test raises an error instead of
returning a boolean". -/
theorem claim9_counterexample :
    (PlayerAction.mk 0 .PROVE (.proveInfo (some 0) ⟨[], []⟩ 0)).valid (TypeReq.one .PROVE)
      = .ok true := rfl

/-- Claim C9, amended: the structural check of a 3-tuple PROVE payload
raises TypeError exactly when the opposing-proof-index field is `None`
(only then does the isinstance scan reach the `None` classinfo member,
which is not a type); with an integer index the check returns true.
Nevertheless `actionValid` never accepts any PROVE action carrying a
3-tuple payload, on any match state: in the 4-deep PROVE shape the
first-mover and index-range checks return not-legal, and every remaining
path either raises TypeError (a `None` index) or calls `startAxioms`,
which always raises. -/
theorem claim9_prove_never_accepted (p0 : Int) (pf : Proof) (d : Int) (o : Int)
    (g : PWars) (opp : Option Int) :
    (PlayerAction.mk p0 .PROVE (.proveInfo none pf d)).valid (TypeReq.one .PROVE)
        = .error .typeError ∧
    (PlayerAction.mk p0 .PROVE (.proveInfo (some o) pf d)).valid (TypeReq.one .PROVE)
        = .ok true ∧
    actionValid g (PlayerAction.mk p0 .PROVE (.proveInfo opp pf d)) ≠ .ok true := by
  refine ⟨rfl, rfl, ?_⟩
  intro hres
  unfold actionValid at hres
  split at hres
  · simp at hres
  · split at hres
    · simp at hres
    · simp only [orE] at hres
      rw [show (PlayerAction.mk p0 .PROVE (.proveInfo opp pf d)).valid
          (TypeReq.one .DEBUGACT) = .ok false from rfl] at hres
      simp only [] at hres
      cases h1 : initialBranch (currentGameStates g.history) (recentPlayerActions g.history)
          (PlayerAction.mk p0 .PROVE (.proveInfo opp pf d)) with
      | error e => rw [h1] at hres; simp at hres
      | ok b1 =>
          cases b1
          case true =>
              exact initialBranch_ne_true _ _ _ (by intro hcon; cases hcon) h1
          case false =>
          rw [h1] at hres
          simp only [] at hres
          cases h2 : creationBranch (currentGameStates g.history)
              (recentPlayerActions g.history)
              (PlayerAction.mk p0 .PROVE (.proveInfo opp pf d)) with
          | error e => rw [h2] at hres; simp at hres
          | ok b2 =>
              cases b2
              case true =>
                  exact creationBranch_ne_true _ _ _ (by intro hcon; cases hcon) h2
              case false =>
              rw [h2] at hres
              simp only [] at hres
              cases h3 : editingBranch (currentGameStates g.history)
                  (recentPlayerActions g.history)
                  (PlayerAction.mk p0 .PROVE (.proveInfo opp pf d)) with
              | error e => rw [h3] at hres; simp at hres
              | ok b3 =>
                  cases b3
                  case true =>
                      exact editingBranch_ne_true _ _ _ (by intro hcon; cases hcon) h3
                  case false =>
                  rw [h3] at hres
                  simp only [] at hres
                  cases h4 : claimingBranch g (currentGameStates g.history)
                      (recentPlayerActions g.history)
                      (PlayerAction.mk p0 .PROVE (.proveInfo opp pf d)) with
                  | error e => rw [h4] at hres; simp at hres
                  | ok b4 =>
                      cases b4
                      case true =>
                          exact claimingBranch_ne_true _ _ _ _ (by intro hcon; cases hcon) h4
                      case false =>
                      rw [h4] at hres
                      simp only [] at hres
                      -- main branch
                      unfold mainBranch at hres
                      split at hres
                      · simp at hres
                      · split at hres
                        · split at hres
                          · simp at hres
                          · split at hres
                            · rw [mainThreeDeep_of_valid_false _ _ _ _
                                  (PlayerAction.mk p0 .PROVE (.proveInfo opp pf d))
                                  (by rfl)] at hres
                              simp only [] at hres
                              split at hres
                              · split at hres
                                · split at hres
                                  · exact fourDeepCheck_ne_true g
                                      (recentPlayerActions g.history) p0 opp pf d hres
                                  · simp at hres
                                · simp at hres
                              · simp at hres
                            · simp at hres
                        · simp at hres

/-! ### Claim C4 -/

theorem orE_false (y : Unit → Except PError Bool) : orE (.ok false) y = y () := rfl

/-- A CLAIMING-phase position where the turn player (power 100) claims an
opponent card priced 999: the legality checker accepts it anyway. -/
def claim4Game : PWars :=
  { players := [{ health := 200, power := 100 },
                { health := 200, power := 100,
                  cards := [{ blank := false, tag := some CardTag.ROCK, powerCost := some 999,
                              effect := some ⟨0, 0⟩, creator := some 1 }] }],
    deck := [],
    history := [Entry.state ⟨0, GameStateType.CLAIMING, none⟩,
                Entry.state ⟨1, GameStateType.RANDPLAYER, some 0⟩,
                Entry.state ⟨2, GameStateType.TURN, some 0⟩],
    remaining := [false, false] }

/-- Claim C4, counterexample: the legality checker never compares the claim
price against the actor's power — a CLAIM of a 999-cost card by a player
with 100 power is accepted (`ok true`), refuting "not-legal whenever the
total cost exceeds the acting player's power". -/
theorem claim4_counterexample :
    actionValid claim4Game ⟨0, PlayerActionType.CLAIM, .pairList [(1, 0)]⟩ = .ok true ∧
    powerSpentSum claim4Game [(1, 0)] = .ok 999 ∧
    pyGet claim4Game.players 0 = .ok { health := 200, power := 100 } ∧
    (100 : Int) < 999 := by
  exact ⟨rfl, rfl, rfl, by decide⟩

/-- Claim C4, amended: for a CLAIM action in the 3-deep CLAIMING shape and a
CLAIMPLAY action in the 3-deep MAIN shape (empty window, remaining actor),
the legality checker returns not-legal whenever any referenced card is
blank; the power comparison is NOT part of the legality check — it happens
at application time, where an unaffordable transfer is silently skipped. -/
theorem claim4_blank_rejected (g : PWars) (p : Int) (tp : PlayerActionType)
    (pairs : List (Int × Int)) (s1 s2 : GameState) (pl : Player)
    (hpl : pyGet g.players p = .ok pl)
    (hpa : recentPlayerActions g.history = [])
    (hblank : anyBlankRef g pairs = .ok true)
    (hshape :
      (tp = PlayerActionType.CLAIM ∧
        currentGameStates g.history = [⟨0, GameStateType.CLAIMING, none⟩, s1, s2] ∧
        s2.type = GameStateType.TURN) ∨
      (tp = PlayerActionType.CLAIMPLAY ∧
        currentGameStates g.history = [⟨0, GameStateType.MAIN, none⟩, s1, s2] ∧
        s2.type = GameStateType.TURN ∧ pyGet g.remaining p = .ok true)) :
    actionValid g ⟨p, tp, .pairList pairs⟩ = .ok false := by
  unfold actionValid
  simp only [hpl]
  rcases hshape with ⟨htp, hgs, hs2⟩ | ⟨htp, hgs, hs2, hrem⟩
  · subst htp
    rw [hgs]
    rw [if_neg (by simp)]
    rw [show (PlayerAction.mk p .CLAIM (.pairList pairs)).valid (TypeReq.one .DEBUGACT)
        = .ok false from rfl, orE_false]
    rw [show initialBranch [⟨0, GameStateType.CLAIMING, none⟩, s1, s2]
          (recentPlayerActions g.history) (PlayerAction.mk p .CLAIM (.pairList pairs))
        = .ok false from by unfold initialBranch; rw [if_neg (by simp)], orE_false]
    rw [show creationBranch [⟨0, GameStateType.CLAIMING, none⟩, s1, s2]
          (recentPlayerActions g.history) (PlayerAction.mk p .CLAIM (.pairList pairs))
        = .ok false from by unfold creationBranch; rw [if_neg (by simp)], orE_false]
    rw [show editingBranch [⟨0, GameStateType.CLAIMING, none⟩, s1, s2]
          (recentPlayerActions g.history) (PlayerAction.mk p .CLAIM (.pairList pairs))
        = .ok false from by unfold editingBranch; rw [if_neg (by simp)], orE_false]
    have hclaim : claimingBranch g [⟨0, GameStateType.CLAIMING, none⟩, s1, s2]
        (recentPlayerActions g.history) (PlayerAction.mk p .CLAIM (.pairList pairs))
        = .ok false := by
      unfold claimingBranch
      rw [hpa]
      simp only [List.head?_cons, List.getElem?_cons_succ, List.getElem?_cons_zero,
        List.nil_append, List.length_cons, List.length_nil]
      simp only [if_true]
      rw [if_pos hs2]
      simp only [show allValid (TypeReq.one .CLAIM)
          [Entry.act (PlayerAction.mk p .CLAIM (.pairList pairs))] = .ok true from rfl]
      cases hinfo : s2.info with
      | none => simp only [hinfo]
      | some n =>
          simp only [hinfo]
          by_cases hpn : p = n
          · rw [if_pos hpn]
            by_cases hlen : pairs.length ≤ 8
            · rw [if_pos hlen]
              simp only [hblank, Bool.not_true]
            · rw [if_neg hlen]
          · rw [if_neg hpn]
    rw [hclaim, orE_false]
    unfold mainBranch
    simp only [List.head?_cons]
    rw [if_neg (by decide)]
  · subst htp
    rw [hgs]
    rw [if_neg (by simp)]
    rw [show (PlayerAction.mk p .CLAIMPLAY (.pairList pairs)).valid (TypeReq.one .DEBUGACT)
        = .ok false from rfl, orE_false]
    rw [show initialBranch [⟨0, GameStateType.MAIN, none⟩, s1, s2]
          (recentPlayerActions g.history) (PlayerAction.mk p .CLAIMPLAY (.pairList pairs))
        = .ok false from by unfold initialBranch; rw [if_neg (by simp)], orE_false]
    rw [show creationBranch [⟨0, GameStateType.MAIN, none⟩, s1, s2]
          (recentPlayerActions g.history) (PlayerAction.mk p .CLAIMPLAY (.pairList pairs))
        = .ok false from by unfold creationBranch; rw [if_neg (by simp)], orE_false]
    rw [show editingBranch [⟨0, GameStateType.MAIN, none⟩, s1, s2]
          (recentPlayerActions g.history) (PlayerAction.mk p .CLAIMPLAY (.pairList pairs))
        = .ok false from by unfold editingBranch; rw [if_neg (by simp)], orE_false]
    rw [show claimingBranch g [⟨0, GameStateType.MAIN, none⟩, s1, s2]
          (recentPlayerActions g.history) (PlayerAction.mk p .CLAIMPLAY (.pairList pairs))
        = .ok false from by
      unfold claimingBranch
      simp only [List.head?_cons]
      rw [if_neg (by decide)], orE_false]
    unfold mainBranch
    simp only [List.head?_cons]
    simp only [if_true]
    rw [hrem]
    simp only [if_true]
    have h3 : mainThreeDeep g pl [⟨0, GameStateType.MAIN, none⟩, s1, s2]
        (recentPlayerActions g.history) (PlayerAction.mk p .CLAIMPLAY (.pairList pairs))
        = .ok false := by
      unfold mainThreeDeep
      rw [hpa]
      simp only [List.getElem?_cons_succ, List.getElem?_cons_zero,
        List.length_cons, List.length_nil]
      simp only [if_true]
      rw [if_pos ⟨hs2, trivial⟩]
      simp only [show (PlayerAction.mk p .CLAIMPLAY (.pairList pairs)).valid
          (TypeReq.many [.PLAY, .DISCARD, .CLAIMPLAY, .UNREMAIN]) = .ok true from rfl]
      show claimPlayCheck g (PlayerAction.mk p .CLAIMPLAY (.pairList pairs)) = .ok false
      unfold claimPlayCheck
      show (if pairs.length ≤ 8 then
              (match anyBlankRef g pairs with
               | Except.error e => (Except.error e : Except PError Bool)
               | Except.ok b => Except.ok !b)
            else Except.ok false) = Except.ok false
      by_cases hlen : pairs.length ≤ 8
      · rw [if_pos hlen]
        simp only [hblank, Bool.not_true]
      · rw [if_neg hlen]
    rw [h3]
    simp only [List.length_cons, List.length_nil]
    rw [if_neg (by omega)]

/-- Witness for the amended blank-claim rejection at a concrete CLAIMING
position: claiming a blank card is not legal. -/
def claim4WitnessGame : PWars :=
  { players := [{ health := 200, power := 100 },
                { health := 200, power := 100, cards := [blankCard] }],
    deck := [],
    history := [Entry.state ⟨0, GameStateType.CLAIMING, none⟩,
                Entry.state ⟨1, GameStateType.RANDPLAYER, some 0⟩,
                Entry.state ⟨2, GameStateType.TURN, some 0⟩],
    remaining := [false, false] }

theorem claim4_blank_rejected_witness :
    actionValid claim4WitnessGame ⟨0, PlayerActionType.CLAIM, .pairList [(1, 0)]⟩
      = .ok false := by
  exact claim4_blank_rejected claim4WitnessGame 0 PlayerActionType.CLAIM [(1, 0)]
    ⟨1, GameStateType.RANDPLAYER, some 0⟩ ⟨2, GameStateType.TURN, some 0⟩
    { health := 200, power := 100 } rfl rfl rfl (Or.inl ⟨rfl, rfl, rfl⟩)

/-! ### Claim C6 -/

/-- Claim C6, confirmed: in the MAIN phase at the 3-deep TURN shape with an
empty action window, a PLAY by a remaining player is rejected if either
referenced card is blank; for non-blank fully-formed cards it is legal
exactly when the main card's complexity does not exceed the secondary's
and, when a previous `recentPlay` exists, the main card costs no more than
the opponent's main card and either the opponent's tag does not beat the
main card's tag or the main card's complexity is strictly lower than the
opponent's; with no previous play no further condition applies. -/
theorem claim6_play_legality (g : PWars) (p i j : Int) (s1 s2 : GameState) (pl : Player)
    (hpl : pyGet g.players p = .ok pl)
    (hgs : currentGameStates g.history = [⟨0, GameStateType.MAIN, none⟩, s1, s2])
    (hs2 : s2.type = GameStateType.TURN)
    (hpa : recentPlayerActions g.history = [])
    (hrem : pyGet g.remaining p = .ok true) :
    (∀ c1 c2 : Card, pyGet pl.cards i = .ok c1 → pyGet pl.cards j = .ok c2 →
      (c1 = blankCard ∨ c2 = blankCard) →
      actionValid g ⟨p, .PLAY, .pairInt i j⟩ = .ok false) ∧
    (∀ (mt st : CardTag) (mpc spc : Int) (me se : Statement) (mcr scr : Option Int),
      pyGet pl.cards i = .ok ⟨false, some mt, some mpc, some me, mcr⟩ →
      pyGet pl.cards j = .ok ⟨false, some st, some spc, some se, scr⟩ →
      ((g.recentPlay = none →
        (actionValid g ⟨p, .PLAY, .pairInt i j⟩ = .ok true ↔
          me.symbolPoint ≤ se.symbolPoint)) ∧
       (∀ (omc osc : Card) (ot : CardTag) (opc : Int) (oe : Statement),
        g.recentPlay = some (omc, osc) → omc.tag = some ot → omc.powerCost = some opc →
        omc.effect = some oe →
        (actionValid g ⟨p, .PLAY, .pairInt i j⟩ = .ok true ↔
          (me.symbolPoint ≤ se.symbolPoint ∧ mpc ≤ opc ∧
            (ot.beat mt = false ∨ me.symbolPoint < oe.symbolPoint)))))) := by
  have hred : actionValid g (PlayerAction.mk p .PLAY (.pairInt i j))
      = playCheck g pl (PlayerAction.mk p .PLAY (.pairInt i j)) := by
    unfold actionValid
    simp only [hpl]
    rw [hgs]
    rw [if_neg (by simp)]
    rw [show (PlayerAction.mk p .PLAY (.pairInt i j)).valid (TypeReq.one .DEBUGACT)
        = .ok false from rfl, orE_false]
    rw [show initialBranch [⟨0, GameStateType.MAIN, none⟩, s1, s2]
          (recentPlayerActions g.history) (PlayerAction.mk p .PLAY (.pairInt i j))
        = .ok false from by unfold initialBranch; rw [if_neg (by simp)], orE_false]
    rw [show creationBranch [⟨0, GameStateType.MAIN, none⟩, s1, s2]
          (recentPlayerActions g.history) (PlayerAction.mk p .PLAY (.pairInt i j))
        = .ok false from by unfold creationBranch; rw [if_neg (by simp)], orE_false]
    rw [show editingBranch [⟨0, GameStateType.MAIN, none⟩, s1, s2]
          (recentPlayerActions g.history) (PlayerAction.mk p .PLAY (.pairInt i j))
        = .ok false from by unfold editingBranch; rw [if_neg (by simp)], orE_false]
    rw [show claimingBranch g [⟨0, GameStateType.MAIN, none⟩, s1, s2]
          (recentPlayerActions g.history) (PlayerAction.mk p .PLAY (.pairInt i j))
        = .ok false from by
      unfold claimingBranch
      simp only [List.head?_cons]
      rw [if_neg (by decide)], orE_false]
    unfold mainBranch
    simp only [List.head?_cons, if_true]
    rw [hrem]
    simp only [if_true]
    have h3 : mainThreeDeep g pl [⟨0, GameStateType.MAIN, none⟩, s1, s2]
        (recentPlayerActions g.history) (PlayerAction.mk p .PLAY (.pairInt i j))
        = playCheck g pl (PlayerAction.mk p .PLAY (.pairInt i j)) := by
      unfold mainThreeDeep
      rw [hpa]
      simp only [List.getElem?_cons_succ, List.getElem?_cons_zero, List.length_cons,
        List.length_nil, if_true]
      rw [if_pos ⟨hs2, trivial⟩]
      simp only [show (PlayerAction.mk p .PLAY (.pairInt i j)).valid
          (TypeReq.many [.PLAY, .DISCARD, .CLAIMPLAY, .UNREMAIN]) = .ok true from rfl]
    rw [h3]
    simp only [List.length_cons, List.length_nil]
    cases hpc : playCheck g pl (PlayerAction.mk p .PLAY (.pairInt i j)) with
    | error e => simp only [hpc]
    | ok b =>
        cases b
        · simp only [hpc]
          rw [if_neg (by omega)]
        · simp only [hpc]
  constructor
  · intro c1 c2 hc1 hc2 hblank12
    rw [hred]
    unfold playCheck
    simp only [hc1, hc2]
    rw [if_pos hblank12]
  · intro mt st mpc spc me se mcr scr hmc hsc
    constructor
    · intro hrp
      rw [hred]
      unfold playCheck
      simp only [hmc, hsc, hrp]
      rw [if_neg (by simp [blankCard])]
      by_cases h1 : me.symbolPoint > se.symbolPoint
      · rw [if_pos h1]
        constructor
        · intro hcon; simp at hcon
        · intro hle; omega
      · rw [if_neg h1]
        constructor
        · intro _; omega
        · intro _; rfl
    · intro omc osc ot opc oe hrp htag hcost heff
      rw [hred]
      unfold playCheck
      simp only [hmc, hsc, hrp, htag, hcost, heff]
      rw [if_neg (by simp [blankCard])]
      by_cases h1 : me.symbolPoint > se.symbolPoint
      · rw [if_pos h1]
        constructor
        · intro hcon; simp at hcon
        · intro hconj; exact absurd hconj.1 (by omega)
      · rw [if_neg h1]
        by_cases h2 : mpc > opc
        · rw [if_pos h2]
          constructor
          · intro hcon; simp at hcon
          · intro hconj; exact absurd hconj.2.1 (by omega)
        · rw [if_neg h2]
          by_cases h3 : ot.beat mt = true
          · rw [if_neg (by simp [h3])]
            by_cases h4 : me.symbolPoint < oe.symbolPoint
            · rw [if_pos h4]
              constructor
              · intro _; exact ⟨by omega, by omega, Or.inr h4⟩
              · intro _; rfl
            · rw [if_neg h4]
              constructor
              · intro hcon; simp at hcon
              · intro hconj
                rcases hconj.2.2 with hb | hsp
                · rw [h3] at hb; cases hb
                · exact absurd hsp h4
          · rw [if_pos (by simp [Bool.eq_false_iff.mpr h3])]
            constructor
            · intro _
              refine ⟨by omega, by omega, Or.inl ?_⟩
              exact Bool.eq_false_iff.mpr h3
            · intro _; rfl

/-- A concrete MAIN-phase 3-deep position with one remaining player holding
two fully-formed cards and no previous play. -/
def claim6Game : PWars :=
  { players := [{ health := 200, power := 100,
                  cards := [{ blank := false, tag := some CardTag.ROCK, powerCost := some 5,
                              effect := some ⟨0, 3⟩, creator := some 0 },
                            { blank := false, tag := some CardTag.PAPER, powerCost := some 7,
                              effect := some ⟨1, 4⟩, creator := some 0 }] }],
    deck := [],
    history := [Entry.state ⟨0, GameStateType.MAIN, none⟩,
                Entry.state ⟨1, GameStateType.RANDPLAYER, some 0⟩,
                Entry.state ⟨2, GameStateType.TURN, some 0⟩],
    remaining := [true],
    recentPlay := none }

/-- Witness for the PLAY legality claim: with no previous play and
complexity 3 ≤ 4, the PLAY is legal. -/
theorem claim6_play_legality_witness :
    actionValid claim6Game ⟨0, PlayerActionType.PLAY, .pairInt 0 1⟩ = .ok true := by
  have h := ((claim6_play_legality claim6Game 0 0 1
      ⟨1, GameStateType.RANDPLAYER, some 0⟩ ⟨2, GameStateType.TURN, some 0⟩
      { health := 200, power := 100,
        cards := [{ blank := false, tag := some CardTag.ROCK, powerCost := some 5,
                    effect := some ⟨0, 3⟩, creator := some 0 },
                  { blank := false, tag := some CardTag.PAPER, powerCost := some 7,
                    effect := some ⟨1, 4⟩, creator := some 0 }] }
      rfl rfl rfl rfl rfl).2 CardTag.ROCK CardTag.PAPER 5 7 ⟨0, 3⟩ ⟨1, 4⟩ (some 0) (some 0)
      rfl rfl).1 rfl
  exact h.mpr (by decide)

/-! ### Claim C10 -/

theorem currentGameStates_append_act (h : List Entry) (a : PlayerAction) :
    currentGameStates (h ++ [Entry.act a]) = currentGameStates h := by
  unfold currentGameStates
  rw [List.filterMap_append]
  simp [Entry.gameState?]

theorem pyGet_ok_elim (l : List α) (i : Int) (x : α) (h : pyGet l i = .ok x) :
    ∃ n, pyIdx l.length i = some n ∧ l[n]? = some x := by
  unfold pyGet at h
  split at h
  · rename_i n hn
    split at h
    · rename_i y hy
      injection h with h2; subst h2
      exact ⟨n, hn, hy⟩
    · simp at h
  · simp at h

/-- Claim C10, confirmed: in the MAIN 3-deep TURN shape with an empty
window, the legality checker accepts a DISCARD action without checking
blankness of the referenced card, and applying the accepted action raises
TypeError (from `powerCost += 2` on the blank card's absent cost) after the
action has already been appended to the ledger. -/
theorem claim10_discard_blank (g : PWars) (p i : Int) (s1 s2 : GameState) (pl : Player)
    (c : Card)
    (hpl : pyGet g.players p = .ok pl)
    (hgs : currentGameStates g.history = [⟨0, GameStateType.MAIN, none⟩, s1, s2])
    (hs2 : s2.type = GameStateType.TURN)
    (hpa : recentPlayerActions g.history = [])
    (hrem : pyGet g.remaining p = .ok true)
    (hc : pyGet pl.cards i = .ok c)
    (hcost : c.powerCost = none) :
    actionValid g ⟨p, .DISCARD, .intI i⟩ = .ok true ∧
    action g ⟨p, .DISCARD, .intI i⟩
      = (.error .typeError,
         { g with history := g.history ++ [Entry.act ⟨p, .DISCARD, .intI i⟩] }) := by
  have hvalid : actionValid g (PlayerAction.mk p .DISCARD (.intI i)) = .ok true := by
    unfold actionValid
    simp only [hpl]
    rw [hgs]
    rw [if_neg (by simp)]
    rw [show (PlayerAction.mk p .DISCARD (.intI i)).valid (TypeReq.one .DEBUGACT)
        = .ok false from rfl, orE_false]
    rw [show initialBranch [⟨0, GameStateType.MAIN, none⟩, s1, s2]
          (recentPlayerActions g.history) (PlayerAction.mk p .DISCARD (.intI i))
        = .ok false from by unfold initialBranch; rw [if_neg (by simp)], orE_false]
    rw [show creationBranch [⟨0, GameStateType.MAIN, none⟩, s1, s2]
          (recentPlayerActions g.history) (PlayerAction.mk p .DISCARD (.intI i))
        = .ok false from by unfold creationBranch; rw [if_neg (by simp)], orE_false]
    rw [show editingBranch [⟨0, GameStateType.MAIN, none⟩, s1, s2]
          (recentPlayerActions g.history) (PlayerAction.mk p .DISCARD (.intI i))
        = .ok false from by unfold editingBranch; rw [if_neg (by simp)], orE_false]
    rw [show claimingBranch g [⟨0, GameStateType.MAIN, none⟩, s1, s2]
          (recentPlayerActions g.history) (PlayerAction.mk p .DISCARD (.intI i))
        = .ok false from by
      unfold claimingBranch
      simp only [List.head?_cons]
      rw [if_neg (by decide)], orE_false]
    unfold mainBranch
    simp only [List.head?_cons, if_true]
    rw [hrem]
    simp only [if_true]
    have h3 : mainThreeDeep g pl [⟨0, GameStateType.MAIN, none⟩, s1, s2]
        (recentPlayerActions g.history) (PlayerAction.mk p .DISCARD (.intI i))
        = .ok true := by
      unfold mainThreeDeep
      rw [hpa]
      simp only [List.getElem?_cons_succ, List.getElem?_cons_zero, List.length_cons,
        List.length_nil, if_true]
      rw [if_pos ⟨hs2, trivial⟩]
      simp only [show (PlayerAction.mk p .DISCARD (.intI i)).valid
          (TypeReq.many [.PLAY, .DISCARD, .CLAIMPLAY, .UNREMAIN]) = .ok true from rfl]
      rfl
    rw [h3]
  refine ⟨hvalid, ?_⟩
  obtain ⟨n, hn, hln⟩ := pyGet_ok_elim _ _ _ hpl
  have hcgs1 : currentGameStates
      (g.history ++ [Entry.act (PlayerAction.mk p .DISCARD (.intI i))])
      = [⟨0, GameStateType.MAIN, none⟩, s1, s2] := by
    rw [currentGameStates_append_act, hgs]
  unfold action
  simp only [hvalid]
  unfold actionApply
  simp only [hcgs1, hn]
  simp only [show ([(⟨0, GameStateType.MAIN, none⟩ : GameState), s1, s2]
        = [⟨0, GameStateType.INITIAL, none⟩]) = False from by simp,
    show ([(⟨0, GameStateType.MAIN, none⟩ : GameState), s1, s2]
        = [⟨0, GameStateType.EDITING, none⟩]) = False from by simp,
    if_false, List.head?_cons,
    show ((⟨0, GameStateType.MAIN, none⟩ : GameState)
        = ⟨0, GameStateType.CLAIMING, none⟩) = False from by decide,
    show ((⟨0, GameStateType.MAIN, none⟩ : GameState)
        = ⟨0, GameStateType.MAIN, none⟩) = True from by simp,
    if_true]
  unfold applyMain
  unfold discardAt
  simp only [hln, hc, hcost]

/-- A MAIN-phase 3-deep position whose only player holds one blank card. -/
def claim10Game : PWars :=
  { players := [{ health := 200, power := 100, cards := [blankCard] }],
    deck := [],
    history := [Entry.state ⟨0, GameStateType.MAIN, none⟩,
                Entry.state ⟨1, GameStateType.RANDPLAYER, some 0⟩,
                Entry.state ⟨2, GameStateType.TURN, some 0⟩],
    remaining := [true] }

/-- Witness for the blank-discard claim: discarding the blank card is
accepted, and applying it raises TypeError with the action already on the
ledger. -/
theorem claim10_discard_blank_witness :
    actionValid claim10Game ⟨0, PlayerActionType.DISCARD, .intI 0⟩ = .ok true ∧
    action claim10Game ⟨0, PlayerActionType.DISCARD, .intI 0⟩
      = (.error .typeError,
         { claim10Game with history := claim10Game.history
             ++ [Entry.act ⟨0, PlayerActionType.DISCARD, .intI 0⟩] }) :=
  claim10_discard_blank claim10Game 0 0 ⟨1, GameStateType.RANDPLAYER, some 0⟩
    ⟨2, GameStateType.TURN, some 0⟩
    { health := 200, power := 100, cards := [blankCard] } blankCard
    rfl rfl rfl rfl rfl rfl rfl

end PWarsModel
